import Mathlib

/-!
Shallow embedding of the `quantum-prisoners` repository (files `quantum_sim.py` and
`app.py`) and verification of the frozen claims about it.

Conventions of the embedding:
* Python floats are modelled by `ℚ` where only field arithmetic on small integers
  occurs (the payoff aggregation) and by `ℝ`/`ℂ` for the linear-algebra layer.
* Python exceptions are modelled by `Except PyErr`; a function that cannot raise is
  total.
* Python dicts are modelled by association lists (`List (String × _)`) looked up with
  `List.lookup`; a missing key is `KeyError`.
* numpy/scipy/qiskit library calls are modelled by their documented mathematics:
  `np.kron` by `kron2`, `scipy.linalg.expm` by `NormedSpace.exp ℂ`,
  `Operator.adjoint` by `Matrix.conjTranspose`, and the Aer statevector sampling
  semantics by `instrUnitary`/`outcomeProb`/`validSample` below.
-/

open scoped Matrix

set_option maxHeartbeats 1000000

/-- Python runtime errors that the two modules can raise in the code under study:
`KeyError` from a dict lookup, `IndexError` from string indexing, `ValueError` raised
explicitly by `quantum_sim.get_strategy_operator`. -/
inductive PyErr
  | keyError
  | indexError
  | valueError
deriving DecidableEq

/-- Models the Python substring test `sub in s` on strings. -/
def pyStrIn (sub s : String) : Bool :=
  (List.range (s.length + 1)).any fun i => (s.data.drop i).take sub.data.length == sub.data

/-- Models `np.kron` for 2×2 complex factors, written out as the standard 4×4 block
layout: `kron2 A B (2*i1+i0) (2*j1+j0) = A i1 j1 * B i0 j0`. -/
noncomputable def kron2 (A B : Matrix (Fin 2) (Fin 2) ℂ) : Matrix (Fin 4) (Fin 4) ℂ :=
  !![A 0 0 * B 0 0, A 0 0 * B 0 1, A 0 1 * B 0 0, A 0 1 * B 0 1;
     A 0 0 * B 1 0, A 0 0 * B 1 1, A 0 1 * B 1 0, A 0 1 * B 1 1;
     A 1 0 * B 0 0, A 1 0 * B 0 1, A 1 1 * B 0 0, A 1 1 * B 0 1;
     A 1 0 * B 1 0, A 1 0 * B 1 1, A 1 1 * B 1 0, A 1 1 * B 1 1]

/-- Circuit instructions appearing in the two-qubit circuits that this repository
builds with qiskit: a 2×2 operator appended to one qubit, a 4×4 operator appended to a
qubit list, a barrier, and measurement of qubits into classical bits.  The repository's
circuits contain no branching and no classical control, and this instruction type has
no constructor for them. -/
inductive Instr
  | app1 (U : Matrix (Fin 2) (Fin 2) ℂ) (q : ℕ)
  | app2 (U : Matrix (Fin 4) (Fin 4) ℂ) (qs : List ℕ)
  | barrier
  | measure (qs cs : List ℕ)

/-- Models `QuantumCircuit(nq, nc)` together with the instruction sequence appended to
it. -/
structure Circuit where
  nq : ℕ
  nc : ℕ
  instrs : List Instr

/-- The 2×2 identity, used to lift a single-qubit gate to the two-qubit register. -/
noncomputable def one2 : Matrix (Fin 2) (Fin 2) ℂ := 1

/-- Models the Aer statevector semantics of one instruction on the two-qubit register.
Qubit 0 is the least significant bit of the basis index (qiskit's little-endian
convention); a gate on qubit 0 acts as `kron2 1 U`, on qubit 1 as `kron2 U 1`; a 4×4
operator appended to `[0, 1]` acts as its own matrix; barriers and the final
measurement leave the pre-measurement state unchanged.  The circuits of this
repository only ever append single-qubit gates to qubits 0 and 1 and 4×4 operators to
`[0, 1]`. -/
noncomputable def instrUnitary : Instr → Matrix (Fin 4) (Fin 4) ℂ
  | .app1 U 0 => kron2 one2 U
  | .app1 U _ => kron2 U one2
  | .app2 U _ => U
  | .barrier => 1
  | .measure _ _ => 1

/-- Product of the instruction unitaries of a circuit, in application order. -/
noncomputable def totalUnitary (c : Circuit) : Matrix (Fin 4) (Fin 4) ℂ :=
  c.instrs.foldl (fun acc ins => instrUnitary ins * acc) 1

/-- The initial two-qubit statevector `|00⟩`. -/
noncomputable def e0 : Fin 4 → ℂ := ![1, 0, 0, 0]

/-- Born-rule probability of basis outcome `k` for the circuit's final state. -/
noncomputable def outcomeProb (c : Circuit) (k : Fin 4) : ℝ :=
  Complex.normSq (Matrix.mulVec (totalUnitary c) e0 k)

/-- Aer count keys for basis index `2*b1 + b0`: the string `"b1b0"`, i.e. the
(qubit-1-bit, qubit-0-bit) native ordering. -/
def outcomeName : Fin 4 → String := !["00", "01", "10", "11"]

/-- Sampling contract of `AerSimulator.run(..., shots=shots).result().get_counts()`:
every returned key is the name of an outcome with nonzero Born probability, and the
returned counts sum to the requested number of shots.  Outcomes that were never
sampled do not appear. -/
def validSample (c : Circuit) (counts : List (String × ℕ)) (shots : ℕ) : Prop :=
  (∀ pr ∈ counts, ∃ k : Fin 4, pr.1 = outcomeName k ∧ outcomeProb c k ≠ 0) ∧
    (counts.map fun pr => pr.2).sum = shots

namespace quantum_sim

/-- `PAYOFFS` dict of `quantum_sim.py`.  Each 2-bit key maps to a single number
(which is Alice's payoff for that joint action), not to a pair. -/
def PAYOFFS : List (String × ℚ) := [("00", 3), ("01", 5), ("10", 0), ("11", 1)]

/-- Matrix `I` of `quantum_sim.py`. -/
noncomputable def I : Matrix (Fin 2) (Fin 2) ℂ := !![1, 0; 0, 1]

/-- Matrix `D` of `quantum_sim.py`: `[[0, 1j], [1j, 0]]`. -/
noncomputable def D : Matrix (Fin 2) (Fin 2) ℂ := !![0, Complex.I; Complex.I, 0]

/-- Matrix `Q` of `quantum_sim.py`: `[[1j, 0], [0, -1j]]`. -/
noncomputable def Q : Matrix (Fin 2) (Fin 2) ℂ := !![Complex.I, 0; 0, -Complex.I]

/-- `get_strategy_operator` of `quantum_sim.py`: returns the fixed matrix for the
labels `'C'`, `'D'`, `'Q'` and raises `ValueError` on every other label. -/
noncomputable def get_strategy_operator (label : String) :
    Except PyErr (Matrix (Fin 2) (Fin 2) ℂ) :=
  if label = "C" then .ok I
  else if label = "D" then .ok D
  else if label = "Q" then .ok Q
  else .error .valueError

/-- Matrix `X` local to `get_J_gate`. -/
noncomputable def X : Matrix (Fin 2) (Fin 2) ℂ := !![0, 1; 1, 0]

/-- `XX = np.kron(X, X)`. -/
noncomputable def XX : Matrix (Fin 4) (Fin 4) ℂ := kron2 X X

/-- `get_J_gate` of `quantum_sim.py`: `expm(1j * gamma * XX / 2)`. -/
noncomputable def get_J_gate (gamma : ℝ) : Matrix (Fin 4) (Fin 4) ℂ :=
  NormedSpace.exp ℂ ((Complex.I * (gamma : ℂ) / 2) • XX)

/-- The circuit built by `run_ewl_circuit` of `quantum_sim.py` before execution:
`J` on `[0, 1]`, barrier, Alice's operator on `[0]`, Bob's operator on `[1]`,
barrier, `J.adjoint()` on `[0, 1]`, `measure([0, 1], [0, 1])`.  A strategy-lookup
failure propagates as the `ValueError` of `get_strategy_operator`. -/
noncomputable def run_ewl_circuit_qc (strat_A strat_B : String) (gamma : ℝ) :
    Except PyErr Circuit := do
  let J := get_J_gate gamma
  let op_A ← get_strategy_operator strat_A
  let op_B ← get_strategy_operator strat_B
  .ok ⟨2, 2, [.app2 J [0, 1], .barrier, .app1 op_A 0, .app1 op_B 1, .barrier,
    .app2 Jᴴ [0, 1], .measure [0, 1] [0, 1]]⟩

/-- Key computation inside `get_expected_payoff`:
`bin_alice = outcome[1]; bin_bob = outcome[0]; key = bin_bob + bin_alice`.
The result is the first two characters of `outcome` in their original order; a string
with fewer than two characters raises `IndexError`. -/
def mk_key (outcome : String) : Except PyErr String :=
  match outcome.data with
  | c0 :: c1 :: _ => .ok (String.mk [c0, c1])
  | _ => .error .indexError

/-- The `total_score` accumulation loop of `get_expected_payoff`: for each
`(outcome, count)` pair, form the key, look `PAYOFFS[key]` up (`KeyError` when
absent), and accumulate `score * count`. -/
def total_score : List (String × ℕ) → Except PyErr ℚ
  | [] => .ok 0
  | (outcome, count) :: rest => do
    let key ← mk_key outcome
    match List.lookup key PAYOFFS with
    | some score => do
      let s ← total_score rest
      .ok (score * (count : ℚ) + s)
    | none => .error .keyError

/-- `get_expected_payoff` of `quantum_sim.py`: returns the single number
`total_score / shots`. -/
def get_expected_payoff (counts : List (String × ℕ)) (shots : ℕ) : Except PyErr ℚ :=
  (total_score counts).map fun t => t / (shots : ℚ)

end quantum_sim

namespace app

/-- `PAYOFFS` dict of `app.py`: each 2-bit key maps to the pair
`(payoff Alice, payoff Bob)`. -/
def PAYOFFS : List (String × (ℚ × ℚ)) :=
  [("00", (3, 3)), ("01", (5, 0)), ("10", (0, 5)), ("11", (1, 1))]

/-- Matrix `I` of `app.py`. -/
noncomputable def I : Matrix (Fin 2) (Fin 2) ℂ := !![1, 0; 0, 1]

/-- Matrix `D` of `app.py`: `[[0, 1j], [1j, 0]]`. -/
noncomputable def D : Matrix (Fin 2) (Fin 2) ℂ := !![0, Complex.I; Complex.I, 0]

/-- Matrix `Q` of `app.py`: `[[1j, 0], [0, -1j]]`. -/
noncomputable def Q : Matrix (Fin 2) (Fin 2) ℂ := !![Complex.I, 0; 0, -Complex.I]

/-- `get_strategy_operator` of `app.py`: substring tests on the label, with a silent
fall-through to the identity for unrecognized labels. -/
noncomputable def get_strategy_operator (label : String) : Matrix (Fin 2) (Fin 2) ℂ :=
  if pyStrIn "Cooperate" label then I
  else if pyStrIn "Defect" label then D
  else if pyStrIn "Quantum" label then Q
  else I

/-- Matrix `X` local to `get_J_gate` of `app.py`. -/
noncomputable def X : Matrix (Fin 2) (Fin 2) ℂ := !![0, 1; 1, 0]

/-- `XX = np.kron(X, X)` in `app.py`. -/
noncomputable def XX : Matrix (Fin 4) (Fin 4) ℂ := kron2 X X

/-- `get_J_gate` of `app.py`: `expm(1j * gamma * XX / 2)`. -/
noncomputable def get_J_gate (gamma : ℝ) : Matrix (Fin 4) (Fin 4) ℂ :=
  NormedSpace.exp ℂ ((Complex.I * (gamma : ℂ) / 2) • XX)

/-- The circuit built by `run_circuit` of `app.py` before execution (the `qc` that the
function also returns): same fixed shape as the batch script's circuit, with the
dashboard's total strategy lookup. -/
noncomputable def run_circuit_qc (strat_A strat_B : String) (gamma : ℝ) : Circuit :=
  ⟨2, 2, [.app2 (get_J_gate gamma) [0, 1], .barrier,
    .app1 (get_strategy_operator strat_A) 0, .app1 (get_strategy_operator strat_B) 1,
    .barrier, .app2 ((get_J_gate gamma)ᴴ) [0, 1], .measure [0, 1] [0, 1]]⟩

/-- Key computation inside `calculate_expected_payoff`: `key = outcome[0] + outcome[1]`,
the first two characters of the outcome string in their original order; a string with
fewer than two characters raises `IndexError`. -/
def mk_key (outcome : String) : Except PyErr String :=
  match outcome.data with
  | c0 :: c1 :: _ => .ok (String.mk [c0, c1])
  | _ => .error .indexError

/-- The accumulation loop of `calculate_expected_payoff`: for each `(outcome, count)`
pair, form the key, unpack `p_alice, p_bob = PAYOFFS[key]` (`KeyError` when absent),
and accumulate `p_alice * count` and `p_bob * count`. -/
def scores : List (String × ℕ) → Except PyErr (ℚ × ℚ)
  | [] => .ok (0, 0)
  | (outcome, count) :: rest => do
    let key ← mk_key outcome
    match List.lookup key PAYOFFS with
    | some p => do
      let s ← scores rest
      .ok (p.1 * (count : ℚ) + s.1, p.2 * (count : ℚ) + s.2)
    | none => .error .keyError

/-- `calculate_expected_payoff` of `app.py`: returns the pair
`(alice_score / shots, bob_score / shots)`. -/
def calculate_expected_payoff (counts : List (String × ℕ)) (shots : ℕ) :
    Except PyErr (ℚ × ℚ) :=
  (scores counts).map fun s => (s.1 / (shots : ℚ), s.2 / (shots : ℚ))

end app

/-- The four 2-bit outcome strings that key both payoff tables. -/
def outcomeKeys : List String := ["00", "01", "10", "11"]

/-- Per-player aggregation formula as the spec words it (for comparison with the
code): Alice's summed payoff `Σ payoff_Alice(key) * count` over the counts mapping,
reading the payoff pair from the dashboard table. -/
def specAliceSum (counts : List (String × ℕ)) : ℚ :=
  (counts.map fun pr => ((List.lookup pr.1 app.PAYOFFS).getD (0, 0)).1 * (pr.2 : ℚ)).sum

/-- Bob's summed payoff `Σ payoff_Bob(key) * count`, as the spec words it. -/
def specBobSum (counts : List (String × ℕ)) : ℚ :=
  (counts.map fun pr => ((List.lookup pr.1 app.PAYOFFS).getD (0, 0)).2 * (pr.2 : ℚ)).sum

/-- Claimed-but-wrong key computation of claim C1, kept only to refute it: the swap of
the native outcome string, i.e. (Alice's bit, Bob's bit) = (outcome[1], outcome[0]). -/
def swapped_key (outcome : String) : Except PyErr String :=
  match outcome.data with
  | c0 :: c1 :: _ => .ok (String.mk [c1, c0])
  | _ => .error .indexError

/-- Aggregation loop of `quantum_sim.get_expected_payoff` as claim C1 describes it
(indexing with the swapped key), kept only to refute the claim. -/
def total_score_swapped : List (String × ℕ) → Except PyErr ℚ
  | [] => .ok 0
  | (outcome, count) :: rest => do
    let key ← swapped_key outcome
    match List.lookup key quantum_sim.PAYOFFS with
    | some score => do
      let s ← total_score_swapped rest
      .ok (score * (count : ℚ) + s)
    | none => .error .keyError

/-- Swapped-key variant of `get_expected_payoff`, kept only to refute claim C1. -/
def get_expected_payoff_swapped (counts : List (String × ℕ)) (shots : ℕ) :
    Except PyErr ℚ :=
  (total_score_swapped counts).map fun t => t / (shots : ℚ)

/-- The two modules compute the payoff-table key identically. -/
theorem mk_key_eq : quantum_sim.mk_key = app.mk_key := rfl

/-- On any of the four 2-bit outcome strings the key computation is the identity. -/
theorem mk_key_of_key (s : String) (h : s ∈ outcomeKeys) : quantum_sim.mk_key s = .ok s := by
  fin_cases h <;> rfl

/-- The batch table is pointwise the first component of the dashboard table. -/
theorem lookup_sim_eq_fst (k : String) :
    List.lookup k quantum_sim.PAYOFFS = (List.lookup k app.PAYOFFS).map Prod.fst := by
  simp only [quantum_sim.PAYOFFS, app.PAYOFFS, List.lookup]
  repeat' split <;> simp_all

/-- The batch accumulation is pointwise the first component of the dashboard
accumulation. -/
theorem total_score_eq_fst (counts : List (String × ℕ)) :
    quantum_sim.total_score counts = (app.scores counts).map Prod.fst := by
  induction counts with
  | nil => rfl
  | cons pr rest ih =>
    obtain ⟨outcome, count⟩ := pr
    simp only [quantum_sim.total_score, app.scores, mk_key_eq, bind, Except.bind]
    cases hk : app.mk_key outcome with
    | error e => rfl
    | ok key =>
      dsimp only
      rw [lookup_sim_eq_fst]
      cases hl : List.lookup key app.PAYOFFS with
      | none => rfl
      | some p =>
        simp only [Option.map_some, ih]
        cases hs : app.scores rest <;> rfl

/-- Evaluation of the dashboard aggregation on counts whose keys all lie in the
table: it computes exactly the per-player sums of the spec's formula. -/
theorem scores_eval (counts : List (String × ℕ))
    (h : ∀ pr ∈ counts, pr.1 ∈ outcomeKeys) :
    app.scores counts = .ok (specAliceSum counts, specBobSum counts) := by
  induction counts with
  | nil => simp [app.scores, specAliceSum, specBobSum]
  | cons pr rest ih =>
    obtain ⟨outcome, count⟩ := pr
    have hmem : outcome ∈ outcomeKeys := h (outcome, count) (List.mem_cons_self _ _)
    have htail : ∀ pr ∈ rest, pr.1 ∈ outcomeKeys := fun pr hpr => h pr (List.mem_cons_of_mem _ hpr)
    have hkey : app.mk_key outcome = .ok outcome := by rw [← mk_key_eq]; exact mk_key_of_key _ hmem
    simp only [app.scores, bind, Except.bind, hkey, ih htail]
    simp only [outcomeKeys, List.mem_cons, List.mem_singleton, List.not_mem_nil, or_false] at hmem
    rcases hmem with rfl | rfl | rfl | rfl <;>
      simp [app.PAYOFFS, List.lookup, specAliceSum, specBobSum]

/-- Evaluation of the batch aggregation on counts whose keys all lie in the table:
it computes exactly Alice's sum of the spec's formula. -/
theorem total_score_eval (counts : List (String × ℕ))
    (h : ∀ pr ∈ counts, pr.1 ∈ outcomeKeys) :
    quantum_sim.total_score counts = .ok (specAliceSum counts) := by
  rw [total_score_eq_fst, scores_eval counts h]
  rfl

/-- Appending an entry with count 0 does not change Alice's spec sum. -/
theorem specAliceSum_append_zero (counts : List (String × ℕ)) (k : String) :
    specAliceSum (counts ++ [(k, 0)]) = specAliceSum counts := by
  simp [specAliceSum]

/-- Appending an entry with count 0 does not change Bob's spec sum. -/
theorem specBobSum_append_zero (counts : List (String × ℕ)) (k : String) :
    specBobSum (counts ++ [(k, 0)]) = specBobSum counts := by
  simp [specBobSum]

/-- C1, counterexample: the claim asserts the payoff aggregation indexes the table
with the SWAP of the native outcome string.  At the counts mapping `{'01': 1}` with 1
shot, both payoff functions return the value stored at the native key `'01'` (namely
5, resp. (5, 0)), while the swapped-key aggregation the claim describes would return
the value stored at `'10'` (namely 0); 5 ≠ 0, so the claim is false. -/
theorem C1_counterexample :
    quantum_sim.get_expected_payoff [("01", 1)] 1 = .ok 5 ∧
    app.calculate_expected_payoff [("01", 1)] 1 = .ok (5, 0) ∧
    get_expected_payoff_swapped [("01", 1)] 1 = .ok 0 ∧
    (5 : ℚ) ≠ 0 := by
  refine ⟨?_, ?_, ?_, by norm_num⟩
  · show Except.ok ((5 * ((1 : ℕ) : ℚ) + 0) / ((1 : ℕ) : ℚ)) = _
    norm_num
  · show Except.ok ((5 * ((1 : ℕ) : ℚ) + 0) / ((1 : ℕ) : ℚ),
      (0 * ((1 : ℕ) : ℚ) + 0) / ((1 : ℕ) : ℚ)) = _
    norm_num
  · show Except.ok ((0 * ((1 : ℕ) : ℚ) + 0) / ((1 : ℕ) : ℚ)) = _
    norm_num

/-- C1 (amended): for every outcome string (first two characters `c0`, `c1` and any
tail), both payoff aggregations index their payoff table with the NATIVE ordering:
the key is `outcome[0] + outcome[1]` — the outcome string's own first two characters
in unchanged order, i.e. the backend's (qubit-1-bit, qubit-0-bit) = (Bob's bit,
Alice's bit) convention — not the swapped (Alice's bit, Bob's bit) reordering the
claim describes.  (The payoff tables are keyed in this same native convention, which
keeps the game semantics correct.) -/
theorem C1_payoff_key_is_native (c0 c1 : Char) (tail : List Char) (count : ℕ) :
    quantum_sim.mk_key (String.mk (c0 :: c1 :: tail)) = .ok (String.mk [c0, c1]) ∧
    app.mk_key (String.mk (c0 :: c1 :: tail)) = .ok (String.mk [c0, c1]) ∧
    quantum_sim.total_score [(String.mk (c0 :: c1 :: tail), count)] =
      (match List.lookup (String.mk [c0, c1]) quantum_sim.PAYOFFS with
        | some score => .ok (score * (count : ℚ) + 0)
        | none => .error .keyError) ∧
    app.scores [(String.mk (c0 :: c1 :: tail), count)] =
      (match List.lookup (String.mk [c0, c1]) app.PAYOFFS with
        | some p => .ok (p.1 * (count : ℚ) + 0, p.2 * (count : ℚ) + 0)
        | none => .error .keyError) := by
  refine ⟨rfl, rfl, ?_, ?_⟩
  · cases h : List.lookup (String.mk [c0, c1]) quantum_sim.PAYOFFS <;>
      simp [quantum_sim.total_score, quantum_sim.mk_key, h, bind, Except.bind]
  · cases h : List.lookup (String.mk [c0, c1]) app.PAYOFFS <;>
      simp [app.scores, app.mk_key, h, bind, Except.bind]

/-- C2, counterexample: the claim asserts the expected-payoff operation returns the
PAIR of both players' expected payoffs.  `quantum_sim.get_expected_payoff` returns a
single number: on the two counts mappings `{'00': 5}` and `{'01': 3, '10': 2}` (5
shots each) it returns the same value 3, yet Bob's expected payoff differs (3 vs 2,
as the dashboard's pair-valued function shows), so the batch function's single return
value cannot be — and does not contain — the claimed pair. -/
theorem C2_counterexample :
    quantum_sim.get_expected_payoff [("00", 5)] 5 = .ok 3 ∧
    quantum_sim.get_expected_payoff [("01", 3), ("10", 2)] 5 = .ok 3 ∧
    app.calculate_expected_payoff [("00", 5)] 5 = .ok (3, 3) ∧
    app.calculate_expected_payoff [("01", 3), ("10", 2)] 5 = .ok (3, 2) ∧
    (3 : ℚ) ≠ 2 := by
  refine ⟨?_, ?_, ?_, ?_, by norm_num⟩
  · show Except.ok ((3 * ((5 : ℕ) : ℚ) + 0) / ((5 : ℕ) : ℚ)) = _
    norm_num
  · show Except.ok ((5 * ((3 : ℕ) : ℚ) + (0 * ((2 : ℕ) : ℚ) + 0)) / ((5 : ℕ) : ℚ)) = _
    norm_num
  · show Except.ok ((3 * ((5 : ℕ) : ℚ) + 0) / ((5 : ℕ) : ℚ),
      (3 * ((5 : ℕ) : ℚ) + 0) / ((5 : ℕ) : ℚ)) = _
    norm_num
  · show Except.ok ((5 * ((3 : ℕ) : ℚ) + (0 * ((2 : ℕ) : ℚ) + 0)) / ((5 : ℕ) : ℚ),
      (0 * ((3 : ℕ) : ℚ) + (5 * ((2 : ℕ) : ℚ) + 0)) / ((5 : ℕ) : ℚ)) = _
    norm_num

/-- C2 (amended): for every counts mapping with keys among the four 2-bit outcomes
and every positive shot count, `app.calculate_expected_payoff` returns the pair
(expected payoff Alice, expected payoff Bob), each component the sum over outcomes of
that player's table payoff times the count, divided by shots; and
`quantum_sim.get_expected_payoff` returns only Alice's component as a single number,
not a pair. -/
theorem C2_expected_payoff_formula (counts : List (String × ℕ)) (shots : ℕ)
    (h : ∀ pr ∈ counts, pr.1 ∈ outcomeKeys) (hpos : 0 < shots) :
    app.calculate_expected_payoff counts shots =
      .ok (specAliceSum counts / (shots : ℚ), specBobSum counts / (shots : ℚ)) ∧
    quantum_sim.get_expected_payoff counts shots =
      .ok (specAliceSum counts / (shots : ℚ)) := by
  constructor
  · unfold app.calculate_expected_payoff
    rw [scores_eval counts h]
    rfl
  · unfold quantum_sim.get_expected_payoff
    rw [total_score_eval counts h]
    rfl

/-- Witness for C2's amended theorem at counts `{'01': 2}`, 2 shots. -/
theorem C2_expected_payoff_formula_witness :
    (∀ pr ∈ ([("01", 2)] : List (String × ℕ)), pr.1 ∈ outcomeKeys) ∧ 0 < 2 ∧
    (app.calculate_expected_payoff [("01", 2)] 2 =
      .ok (specAliceSum [("01", 2)] / ((2 : ℕ) : ℚ), specBobSum [("01", 2)] / ((2 : ℕ) : ℚ)) ∧
    quantum_sim.get_expected_payoff [("01", 2)] 2 =
      .ok (specAliceSum [("01", 2)] / ((2 : ℕ) : ℚ))) :=
  ⟨by decide, by decide, C2_expected_payoff_formula [("01", 2)] 2 (by decide) (by decide)⟩

/-- C4, counterexample: the claim asserts both modules' payoff lookups return the
payoff PAIRS.  `quantum_sim.PAYOFFS` stores one number per key: at the key `'10'` it
returns 0 while the classical-matrix pair there is (0, 5); the single number 0 does
not carry Bob's payoff 5. -/
theorem C4_counterexample :
    List.lookup "10" quantum_sim.PAYOFFS = some 0 ∧
    List.lookup "10" app.PAYOFFS = some ((0 : ℚ), (5 : ℚ)) ∧
    (0 : ℚ) ≠ 5 :=
  ⟨rfl, rfl, by norm_num⟩

/-- C4 (amended): for the four fixed joint-action keys, `app.PAYOFFS` returns exactly
the classical-matrix pairs (3,3), (5,0), (0,5), (1,1), while `quantum_sim.PAYOFFS`
returns exactly the single Alice components 3, 5, 0, 1 (not pairs). -/
theorem C4_payoff_table_roundtrip :
    List.lookup "00" app.PAYOFFS = some ((3 : ℚ), (3 : ℚ)) ∧
    List.lookup "01" app.PAYOFFS = some ((5 : ℚ), (0 : ℚ)) ∧
    List.lookup "10" app.PAYOFFS = some ((0 : ℚ), (5 : ℚ)) ∧
    List.lookup "11" app.PAYOFFS = some ((1 : ℚ), (1 : ℚ)) ∧
    List.lookup "00" quantum_sim.PAYOFFS = some (3 : ℚ) ∧
    List.lookup "01" quantum_sim.PAYOFFS = some (5 : ℚ) ∧
    List.lookup "10" quantum_sim.PAYOFFS = some (0 : ℚ) ∧
    List.lookup "11" quantum_sim.PAYOFFS = some (1 : ℚ) :=
  ⟨rfl, rfl, rfl, rfl, rfl, rfl, rfl, rfl⟩

/-- C5 (confirmed): for every label outside its recognized set the batch module's
`get_strategy_operator` raises `ValueError`, while for every label matching none of
the dashboard's three substring tests the dashboard's `get_strategy_operator`
silently returns the identity operator; on the recognized labels both return the
corresponding fixed strategy unitary. -/
theorem C5_unknown_label_policies (labelS labelA : String)
    (hS : labelS ∉ (["C", "D", "Q"] : List String))
    (h1 : pyStrIn "Cooperate" labelA = false)
    (h2 : pyStrIn "Defect" labelA = false)
    (h3 : pyStrIn "Quantum" labelA = false) :
    quantum_sim.get_strategy_operator labelS = .error .valueError ∧
    app.get_strategy_operator labelA = app.I ∧
    quantum_sim.get_strategy_operator "C" = .ok quantum_sim.I ∧
    quantum_sim.get_strategy_operator "D" = .ok quantum_sim.D ∧
    quantum_sim.get_strategy_operator "Q" = .ok quantum_sim.Q ∧
    app.get_strategy_operator "Cooperate (C)" = app.I ∧
    app.get_strategy_operator "Defect (D)" = app.D ∧
    app.get_strategy_operator "Quantum (Q)" = app.Q := by
  simp only [List.mem_cons, List.not_mem_nil, or_false, not_or] at hS
  obtain ⟨hc, hd, hq⟩ := hS
  refine ⟨?_, ?_, rfl, rfl, rfl, ?_, ?_, ?_⟩
  · simp [quantum_sim.get_strategy_operator, hc, hd, hq]
  · simp [app.get_strategy_operator, h1, h2, h3]
  · have e1 : pyStrIn "Cooperate" "Cooperate (C)" = true := by decide
    simp [app.get_strategy_operator, e1]
  · have e1 : pyStrIn "Cooperate" "Defect (D)" = false := by decide
    have e2 : pyStrIn "Defect" "Defect (D)" = true := by decide
    simp [app.get_strategy_operator, e1, e2]
  · have e1 : pyStrIn "Cooperate" "Quantum (Q)" = false := by decide
    have e2 : pyStrIn "Defect" "Quantum (Q)" = false := by decide
    have e3 : pyStrIn "Quantum" "Quantum (Q)" = true := by decide
    simp [app.get_strategy_operator, e1, e2, e3]

/-- Witness for C5 at the unrecognized label `"X"`. -/
theorem C5_unknown_label_policies_witness :
    ("X" ∉ (["C", "D", "Q"] : List String)) ∧
    pyStrIn "Cooperate" "X" = false ∧
    pyStrIn "Defect" "X" = false ∧
    pyStrIn "Quantum" "X" = false ∧
    (quantum_sim.get_strategy_operator "X" = .error .valueError ∧
    app.get_strategy_operator "X" = app.I ∧
    quantum_sim.get_strategy_operator "C" = .ok quantum_sim.I ∧
    quantum_sim.get_strategy_operator "D" = .ok quantum_sim.D ∧
    quantum_sim.get_strategy_operator "Q" = .ok quantum_sim.Q ∧
    app.get_strategy_operator "Cooperate (C)" = app.I ∧
    app.get_strategy_operator "Defect (D)" = app.D ∧
    app.get_strategy_operator "Quantum (Q)" = app.Q) :=
  ⟨by decide, by decide, by decide, by decide,
    C5_unknown_label_policies "X" "X" (by decide) (by decide) (by decide) (by decide)⟩

/-- C9 (confirmed): on any counts mapping whose keys all lie among the four 2-bit
outcomes, both payoff aggregations succeed (no error for missing outcome keys), and
appending any of the four keys with count 0 leaves both results unchanged — absent
keys behave exactly like count 0. -/
theorem C9_missing_keys_count_zero (counts : List (String × ℕ)) (shots : ℕ)
    (h : ∀ pr ∈ counts, pr.1 ∈ outcomeKeys) :
    (∃ v, quantum_sim.get_expected_payoff counts shots = .ok v) ∧
    (∃ p, app.calculate_expected_payoff counts shots = .ok p) ∧
    (∀ k ∈ outcomeKeys,
      quantum_sim.get_expected_payoff (counts ++ [(k, 0)]) shots =
        quantum_sim.get_expected_payoff counts shots) ∧
    (∀ k ∈ outcomeKeys,
      app.calculate_expected_payoff (counts ++ [(k, 0)]) shots =
        app.calculate_expected_payoff counts shots) := by
  have happ : ∀ k ∈ outcomeKeys, ∀ pr ∈ counts ++ [(k, 0)], pr.1 ∈ outcomeKeys := by
    intro k hk pr hpr
    rcases List.mem_append.1 hpr with hin | hin
    · exact h pr hin
    · rw [List.mem_singleton.1 hin]
      exact hk
  refine ⟨⟨specAliceSum counts / (shots : ℚ), ?_⟩,
    ⟨(specAliceSum counts / (shots : ℚ), specBobSum counts / (shots : ℚ)), ?_⟩, ?_, ?_⟩
  · unfold quantum_sim.get_expected_payoff
    rw [total_score_eval counts h]
    rfl
  · unfold app.calculate_expected_payoff
    rw [scores_eval counts h]
    rfl
  · intro k hk
    unfold quantum_sim.get_expected_payoff
    rw [total_score_eval _ (happ k hk), total_score_eval counts h, specAliceSum_append_zero]
  · intro k hk
    unfold app.calculate_expected_payoff
    rw [scores_eval _ (happ k hk), scores_eval counts h, specAliceSum_append_zero,
      specBobSum_append_zero]

/-- Witness for C9 at counts `{'11': 3}`, 3 shots. -/
theorem C9_missing_keys_count_zero_witness :
    (∀ pr ∈ ([("11", 3)] : List (String × ℕ)), pr.1 ∈ outcomeKeys) ∧
    ((∃ v, quantum_sim.get_expected_payoff [("11", 3)] 3 = .ok v) ∧
    (∃ p, app.calculate_expected_payoff [("11", 3)] 3 = .ok p) ∧
    (∀ k ∈ outcomeKeys,
      quantum_sim.get_expected_payoff ([("11", 3)] ++ [(k, 0)]) 3 =
        quantum_sim.get_expected_payoff [("11", 3)] 3) ∧
    (∀ k ∈ outcomeKeys,
      app.calculate_expected_payoff ([("11", 3)] ++ [(k, 0)]) 3 =
        app.calculate_expected_payoff [("11", 3)] 3)) :=
  ⟨by decide, C9_missing_keys_count_zero [("11", 3)] 3 (by decide)⟩

/-- C10, counterexample: the claim asserts that a counts entry whose outcome string
does not yield one of the four table keys raises a `KeyError`.  The one-character
outcome string `'0'` yields no table key, yet both functions raise `IndexError` (from
the string indexing `outcome[1]`), not `KeyError`. -/
theorem C10_counterexample :
    quantum_sim.get_expected_payoff [("0", 1)] 1 = .error .indexError ∧
    app.calculate_expected_payoff [("0", 1)] 1 = .error .indexError ∧
    PyErr.indexError ≠ PyErr.keyError :=
  ⟨rfl, rfl, by decide⟩

/-- C10 (amended): the payoff aggregations are partial at the public interface — an
entry whose outcome string has fewer than two characters raises `IndexError`, an
entry whose first two characters form a key absent from the table raises `KeyError`;
under the precondition that every key of counts is one of the four 2-bit strings, the
lookups never fail and both payoff functions are total. -/
theorem C10_partiality :
    (∀ (s : String) (c shots : ℕ) (rest : List (String × ℕ)), s.data.length < 2 →
      quantum_sim.get_expected_payoff ((s, c) :: rest) shots = .error .indexError ∧
      app.calculate_expected_payoff ((s, c) :: rest) shots = .error .indexError) ∧
    (∀ (s k : String) (c shots : ℕ) (rest : List (String × ℕ)),
      quantum_sim.mk_key s = .ok k → List.lookup k quantum_sim.PAYOFFS = none →
      quantum_sim.get_expected_payoff ((s, c) :: rest) shots = .error .keyError) ∧
    (∀ (s k : String) (c shots : ℕ) (rest : List (String × ℕ)),
      app.mk_key s = .ok k → List.lookup k app.PAYOFFS = none →
      app.calculate_expected_payoff ((s, c) :: rest) shots = .error .keyError) ∧
    (∀ (counts : List (String × ℕ)) (shots : ℕ),
      (∀ pr ∈ counts, pr.1 ∈ outcomeKeys) →
      (∃ v, quantum_sim.get_expected_payoff counts shots = .ok v) ∧
      (∃ p, app.calculate_expected_payoff counts shots = .ok p)) := by
  refine ⟨?_, ?_, ?_, ?_⟩
  · intro s c shots rest hlen
    have hk : quantum_sim.mk_key s = .error .indexError := by
      unfold quantum_sim.mk_key
      rcases hd : s.data with _ | ⟨a, _ | ⟨b, t⟩⟩
      · rfl
      · rfl
      · rw [hd] at hlen
        simp only [List.length_cons] at hlen
        exact absurd hlen (by omega)
    have hk' : app.mk_key s = .error .indexError := by rw [← mk_key_eq]; exact hk
    constructor
    · simp [quantum_sim.get_expected_payoff, quantum_sim.total_score, hk, bind, Except.bind,
        Except.map]
    · simp [app.calculate_expected_payoff, app.scores, hk', bind, Except.bind, Except.map]
  · intro s k c shots rest hk hnone
    simp [quantum_sim.get_expected_payoff, quantum_sim.total_score, hk, hnone, bind,
      Except.bind, Except.map]
  · intro s k c shots rest hk hnone
    simp [app.calculate_expected_payoff, app.scores, hk, hnone, bind, Except.bind, Except.map]
  · intro counts shots h
    refine ⟨⟨specAliceSum counts / (shots : ℚ), ?_⟩,
      ⟨(specAliceSum counts / (shots : ℚ), specBobSum counts / (shots : ℚ)), ?_⟩⟩
    · unfold quantum_sim.get_expected_payoff
      rw [total_score_eval counts h]
      rfl
    · unfold app.calculate_expected_payoff
      rw [scores_eval counts h]
      rfl

/-- Witness for C10's amended theorem: the short string `'0'` (IndexError), the
unknown two-character key `'ab'` (KeyError), and a fully valid counts mapping. -/
theorem C10_partiality_witness :
    (("0" : String).data.length < 2 ∧
      (quantum_sim.get_expected_payoff [("0", 1)] 7 = .error .indexError ∧
      app.calculate_expected_payoff [("0", 1)] 7 = .error .indexError)) ∧
    (quantum_sim.mk_key "ab" = .ok "ab" ∧ List.lookup "ab" quantum_sim.PAYOFFS = none ∧
      quantum_sim.get_expected_payoff [("ab", 2)] 4 = .error .keyError) ∧
    (app.mk_key "ab" = .ok "ab" ∧ List.lookup "ab" app.PAYOFFS = none ∧
      app.calculate_expected_payoff [("ab", 2)] 4 = .error .keyError) ∧
    ((∀ pr ∈ ([("00", 1)] : List (String × ℕ)), pr.1 ∈ outcomeKeys) ∧
      ((∃ v, quantum_sim.get_expected_payoff [("00", 1)] 1 = .ok v) ∧
      (∃ p, app.calculate_expected_payoff [("00", 1)] 1 = .ok p))) :=
  ⟨⟨by decide, C10_partiality.1 "0" 1 7 [] (by decide)⟩,
    ⟨rfl, rfl, C10_partiality.2.1 "ab" "ab" 2 4 [] rfl rfl⟩,
    ⟨rfl, rfl, C10_partiality.2.2.1 "ab" "ab" 2 4 [] rfl rfl⟩,
    ⟨by decide, C10_partiality.2.2.2 [("00", 1)] 1 (by decide)⟩⟩

/-- Entrywise value of `XX = np.kron(X, X)`: the 4×4 anti-diagonal of ones. -/
theorem XX_eq : quantum_sim.XX = !![0,0,0,1; 0,0,1,0; 0,1,0,0; 1,0,0,0] := by
  ext i j
  fin_cases i <;> fin_cases j <;>
    simp [quantum_sim.XX, kron2, quantum_sim.X, Matrix.vecHead, Matrix.vecTail]

/-- `XX` is Hermitian. -/
theorem XX_conjTranspose : quantum_sim.XXᴴ = quantum_sim.XX := by
  rw [XX_eq]
  ext i j
  fin_cases i <;> fin_cases j <;>
    simp [Matrix.conjTranspose_apply, Matrix.vecHead, Matrix.vecTail]

/-- Eigenvector matrix of `XX`: columns `(e0±e3)/√2`, `(e1±e2)/√2` up to scale. -/
noncomputable def Vbasis : Matrix (Fin 4) (Fin 4) ℂ :=
  !![1,0,0,1; 0,1,1,0; 0,1,-1,0; 1,0,0,-1]

/-- Inverse of `Vbasis` (which squares to twice the identity). -/
noncomputable def VbasisInv : Matrix (Fin 4) (Fin 4) ℂ := (2⁻¹ : ℂ) • Vbasis

theorem Vbasis_mul_inv : Vbasis * VbasisInv = 1 := by
  ext i j
  fin_cases i <;> fin_cases j <;>
    simp [Vbasis, VbasisInv, Matrix.mul_apply, Fin.sum_univ_four, Matrix.vecHead,
      Matrix.vecTail, Matrix.one_apply] <;> norm_num

theorem VbasisInv_mul : VbasisInv * Vbasis = 1 := by
  ext i j
  fin_cases i <;> fin_cases j <;>
    simp [Vbasis, VbasisInv, Matrix.mul_apply, Fin.sum_univ_four, Matrix.vecHead,
      Matrix.vecTail, Matrix.one_apply] <;> norm_num

/-- `Vbasis` as a unit of the matrix ring. -/
noncomputable def VbasisUnits : (Matrix (Fin 4) (Fin 4) ℂ)ˣ :=
  ⟨Vbasis, VbasisInv, Vbasis_mul_inv, VbasisInv_mul⟩

/-- Eigenvalues of `XX` in the `Vbasis` column order. -/
noncomputable def dvec : Fin 4 → ℂ := ![1, 1, -1, -1]

/-- Diagonalization of `XX`. -/
theorem XX_diagonalized : Vbasis * Matrix.diagonal dvec * VbasisInv = quantum_sim.XX := by
  rw [XX_eq]
  ext i j
  fin_cases i <;> fin_cases j <;>
    simp [Vbasis, VbasisInv, dvec, Matrix.mul_apply, Fin.sum_univ_four,
      Matrix.diagonal_apply, Matrix.vecMul_diagonal, Fin.ext_iff, Fin.val_succ,
      Matrix.vecHead, Matrix.vecTail] <;> norm_num

theorem smul_XX_diagonalized (c : ℂ) :
    c • quantum_sim.XX = Vbasis * Matrix.diagonal (fun k => c * dvec k) * VbasisInv := by
  have h : Matrix.diagonal (fun k => c * dvec k) = c • Matrix.diagonal dvec := by
    rw [← Matrix.diagonal_smul]
    congr 1
  rw [h, Matrix.mul_smul, Matrix.smul_mul, XX_diagonalized]

/-- Matrix exponential of any complex multiple of `XX`, via the diagonalization. -/
theorem exp_smul_XX (c : ℂ) :
    NormedSpace.exp ℂ (c • quantum_sim.XX) =
      Vbasis * Matrix.diagonal (fun k => Complex.exp (c * dvec k)) * VbasisInv := by
  rw [smul_XX_diagonalized]
  have hconj := Matrix.exp_units_conj ℂ VbasisUnits (Matrix.diagonal (fun k => c * dvec k))
  have hV : (VbasisUnits : Matrix (Fin 4) (Fin 4) ℂ) = Vbasis := rfl
  have hVi : ((VbasisUnits⁻¹ : (Matrix (Fin 4) (Fin 4) ℂ)ˣ) : Matrix (Fin 4) (Fin 4) ℂ) =
      VbasisInv := rfl
  rw [hV, hVi] at hconj
  rw [hconj, Matrix.exp_diagonal]
  have hfun : (NormedSpace.exp ℂ fun k => c * dvec k) = fun k => Complex.exp (c * dvec k) := by
    funext k
    rw [Pi.coe_exp, ← Complex.exp_eq_exp_ℂ]
  rw [hfun]

/-- Closed form of the entangling gate: `exp(i·γ·XX/2) = cos(γ/2)·1 + i·sin(γ/2)·XX`,
spelled out entrywise. -/
noncomputable def J_explicit (γ : ℝ) : Matrix (Fin 4) (Fin 4) ℂ :=
  !![(Real.cos (γ/2) : ℂ), 0, 0, Complex.I * (Real.sin (γ/2) : ℂ);
     0, (Real.cos (γ/2) : ℂ), Complex.I * (Real.sin (γ/2) : ℂ), 0;
     0, Complex.I * (Real.sin (γ/2) : ℂ), (Real.cos (γ/2) : ℂ), 0;
     Complex.I * (Real.sin (γ/2) : ℂ), 0, 0, (Real.cos (γ/2) : ℂ)]

/-- The batch module's `get_J_gate` equals the closed form. -/
theorem J_gate_closed (γ : ℝ) : quantum_sim.get_J_gate γ = J_explicit γ := by
  unfold quantum_sim.get_J_gate
  rw [exp_smul_XX]
  ext i j
  fin_cases i <;> fin_cases j <;>
    simp [Vbasis, VbasisInv, dvec, J_explicit, Matrix.mul_apply, Fin.sum_univ_four,
      Matrix.diagonal_apply, Matrix.vecMul_diagonal, Fin.ext_iff, Fin.val_succ,
      Matrix.vecHead, Matrix.vecTail, Complex.ofReal_cos, Complex.ofReal_sin,
      Complex.ofReal_div, Complex.cos, Complex.sin] <;>
    ring_nf <;> simp only [Complex.I_sq] <;> ring

/-- The dashboard's `get_J_gate` is the same function as the batch module's. -/
theorem app_J_gate_eq : app.get_J_gate = quantum_sim.get_J_gate := rfl

/-- C7 (confirmed): for every real gamma, the entangling-gate matrix of both modules
is unitary: `U * Uᴴ = 1` exactly (hence within any floating-point tolerance). -/
theorem C7_entangling_gate_unitary (γ : ℝ) :
    quantum_sim.get_J_gate γ * (quantum_sim.get_J_gate γ)ᴴ = 1 ∧
    app.get_J_gate γ * (app.get_J_gate γ)ᴴ = 1 := by
  have hskew : ((Complex.I * (γ : ℂ) / 2) • quantum_sim.XX)ᴴ =
      -((Complex.I * (γ : ℂ) / 2) • quantum_sim.XX) := by
    rw [Matrix.conjTranspose_smul, XX_conjTranspose, ← neg_smul]
    congr 1
    simp [Complex.ext_iff]
    ring
  have h : quantum_sim.get_J_gate γ * (quantum_sim.get_J_gate γ)ᴴ = 1 := by
    unfold quantum_sim.get_J_gate
    rw [← Matrix.exp_conjTranspose, hskew,
      ← Matrix.exp_add_of_commute ℂ _ _ (Commute.neg_right (Commute.refl _))]
    simp [NormedSpace.exp_zero]
  have happ : app.get_J_gate γ * (app.get_J_gate γ)ᴴ = 1 := by
    rw [app_J_gate_eq]
    exact h
  exact ⟨h, happ⟩

/-- First circuit step: the entangling gate sends `|00⟩` to `cos(γ/2)|00⟩ + i·sin(γ/2)|11⟩`. -/
theorem J_mulVec_e0 (γ : ℝ) :
    J_explicit γ *ᵥ e0 =
      ![(Real.cos (γ/2) : ℂ), 0, 0, Complex.I * (Real.sin (γ/2) : ℂ)] := by
  funext k
  fin_cases k <;>
    simp [J_explicit, e0, Matrix.mulVec, Matrix.dotProduct, Fin.sum_univ_four,
      Matrix.vecHead, Matrix.vecTail]

/-- Second step: the `Q` strategy on qubit 0. -/
theorem k2Q0_mulVec (γ : ℝ) :
    kron2 one2 app.Q *ᵥ ![(Real.cos (γ/2) : ℂ), 0, 0, Complex.I * (Real.sin (γ/2) : ℂ)] =
      ![Complex.I * (Real.cos (γ/2) : ℂ), 0, 0, (Real.sin (γ/2) : ℂ)] := by
  funext k
  fin_cases k <;>
    simp [kron2, one2, app.Q, Matrix.mulVec, Matrix.dotProduct, Fin.sum_univ_four,
      Matrix.vecHead, Matrix.vecTail] <;> ring_nf <;> simp [Complex.I_sq]

/-- Third step: the `Q` strategy on qubit 1. -/
theorem k2Q1_mulVec (γ : ℝ) :
    kron2 app.Q one2 *ᵥ ![Complex.I * (Real.cos (γ/2) : ℂ), 0, 0, (Real.sin (γ/2) : ℂ)] =
      ![-(Real.cos (γ/2) : ℂ), 0, 0, -(Complex.I * (Real.sin (γ/2) : ℂ))] := by
  funext k
  fin_cases k <;>
    simp [kron2, one2, app.Q, Matrix.mulVec, Matrix.dotProduct, Fin.sum_univ_four,
      Matrix.vecHead, Matrix.vecTail] <;> ring_nf <;> simp [Complex.I_sq]

/-- Adjoint of the closed-form entangling gate, entrywise. -/
theorem J_explicit_conjTranspose (γ : ℝ) :
    (J_explicit γ)ᴴ =
      !![(Real.cos (γ/2) : ℂ), 0, 0, -(Complex.I * (Real.sin (γ/2) : ℂ));
         0, (Real.cos (γ/2) : ℂ), -(Complex.I * (Real.sin (γ/2) : ℂ)), 0;
         0, -(Complex.I * (Real.sin (γ/2) : ℂ)), (Real.cos (γ/2) : ℂ), 0;
         -(Complex.I * (Real.sin (γ/2) : ℂ)), 0, 0, (Real.cos (γ/2) : ℂ)] := by
  ext i j
  fin_cases i <;> fin_cases j <;>
    simp [J_explicit, Matrix.conjTranspose_apply, Matrix.vecHead, Matrix.vecTail,
      ← Complex.cos_conj, ← Complex.sin_conj, map_mul, map_div₀, map_ofNat,
      Complex.conj_ofReal]

/-- Last step: the disentangling gate collapses the state back to `-|00⟩`. -/
theorem Jdag_mulVec (γ : ℝ) :
    (J_explicit γ)ᴴ *ᵥ ![-(Real.cos (γ/2) : ℂ), 0, 0, -(Complex.I * (Real.sin (γ/2) : ℂ))] =
      ![-1, 0, 0, 0] := by
  rw [J_explicit_conjTranspose]
  funext k
  have hone : Complex.cos ((γ : ℂ) * (1 / 2)) ^ 2 + Complex.sin ((γ : ℂ) * (1 / 2)) ^ 2 = 1 :=
    Complex.cos_sq_add_sin_sq _
  fin_cases k <;>
    simp [Matrix.mulVec, Matrix.dotProduct, Fin.sum_univ_four,
      Matrix.vecHead, Matrix.vecTail] <;>
    ring_nf
  simp only [Complex.I_sq]
  linear_combination (-1 : ℂ) * hone

/-- The dashboard's strategy lookup resolves each of its three labels. -/
theorem app_strategy_cooperate : app.get_strategy_operator "Cooperate (C)" = app.I := by
  have e1 : pyStrIn "Cooperate" "Cooperate (C)" = true := by decide
  simp [app.get_strategy_operator, e1]

theorem app_strategy_defect : app.get_strategy_operator "Defect (D)" = app.D := by
  have e1 : pyStrIn "Cooperate" "Defect (D)" = false := by decide
  have e2 : pyStrIn "Defect" "Defect (D)" = true := by decide
  simp [app.get_strategy_operator, e1, e2]

theorem app_strategy_quantum : app.get_strategy_operator "Quantum (Q)" = app.Q := by
  have e1 : pyStrIn "Cooperate" "Quantum (Q)" = false := by decide
  have e2 : pyStrIn "Defect" "Quantum (Q)" = false := by decide
  have e3 : pyStrIn "Quantum" "Quantum (Q)" = true := by decide
  simp [app.get_strategy_operator, e1, e2, e3]

/-- Final state of the Quantum-vs-Quantum circuit at any entanglement: `-|00⟩`. -/
theorem QQ_final_state (γ : ℝ) :
    Matrix.mulVec (totalUnitary (app.run_circuit_qc "Quantum (Q)" "Quantum (Q)" γ)) e0 =
      ![-1, 0, 0, 0] := by
  have hJ : app.get_J_gate γ = J_explicit γ := by
    rw [app_J_gate_eq]
    exact J_gate_closed γ
  simp only [app.run_circuit_qc, app_strategy_quantum, totalUnitary, instrUnitary,
    List.foldl]
  rw [hJ]
  simp only [one_mul, mul_one]
  rw [← Matrix.mulVec_mulVec, ← Matrix.mulVec_mulVec, ← Matrix.mulVec_mulVec]
  rw [J_mulVec_e0, k2Q0_mulVec, k2Q1_mulVec, Jdag_mulVec]

/-- Output distribution of the Quantum-vs-Quantum circuit: all mass on outcome `'00'`. -/
theorem QQ_probs (γ : ℝ) (k : Fin 4) :
    outcomeProb (app.run_circuit_qc "Quantum (Q)" "Quantum (Q)" γ) k =
      (![1, 0, 0, 0] : Fin 4 → ℝ) k := by
  unfold outcomeProb
  rw [QQ_final_state]
  fin_cases k <;> simp [Matrix.vecHead, Matrix.vecTail]

/-- Alice's spec sum over counts whose keys are all `'00'` is 3 times the total count. -/
theorem specAliceSum_all00 (counts : List (String × ℕ)) :
    (∀ pr ∈ counts, pr.1 = "00") →
    specAliceSum counts = 3 * (((counts.map fun pr => pr.2).sum : ℕ) : ℚ) := by
  induction counts with
  | nil => intro _; simp [specAliceSum]
  | cons pr rest ih =>
    intro h
    have hh : pr.1 = "00" := h pr (List.mem_cons_self _ _)
    have ht : ∀ p ∈ rest, p.1 = "00" := fun p hp => h p (List.mem_cons_of_mem _ hp)
    have hstep : specAliceSum (pr :: rest) =
        ((List.lookup pr.1 app.PAYOFFS).getD (0, 0)).1 * (pr.2 : ℚ) + specAliceSum rest := by
      simp [specAliceSum]
    rw [hstep, hh, ih ht]
    simp [app.PAYOFFS, List.lookup]
    push_cast
    ring

/-- Bob's spec sum over counts whose keys are all `'00'` is 3 times the total count. -/
theorem specBobSum_all00 (counts : List (String × ℕ)) :
    (∀ pr ∈ counts, pr.1 = "00") →
    specBobSum counts = 3 * (((counts.map fun pr => pr.2).sum : ℕ) : ℚ) := by
  induction counts with
  | nil => intro _; simp [specBobSum]
  | cons pr rest ih =>
    intro h
    have hh : pr.1 = "00" := h pr (List.mem_cons_self _ _)
    have ht : ∀ p ∈ rest, p.1 = "00" := fun p hp => h p (List.mem_cons_of_mem _ hp)
    have hstep : specBobSum (pr :: rest) =
        ((List.lookup pr.1 app.PAYOFFS).getD (0, 0)).2 * (pr.2 : ℚ) + specBobSum rest := by
      simp [specBobSum]
    rw [hstep, hh, ih ht]
    simp [app.PAYOFFS, List.lookup]
    push_cast
    ring

/-- C6 (confirmed): at gamma = pi/2 with both players on the Quantum strategy, any
counts mapping the sampler can return (all mass on outcomes of nonzero Born
probability, 4096 total shots) yields exactly the cooperative expected payoff:
the dashboard computes the pair (3, 3) and the batch script Alice's value 3 — the
output distribution is a point mass on outcome `'00'`, so this holds not just within
sampling tolerance but exactly. -/
theorem C6_quantum_vs_quantum_cooperative (counts : List (String × ℕ))
    (h : validSample (app.run_circuit_qc "Quantum (Q)" "Quantum (Q)" (Real.pi / 2))
      counts 4096) :
    app.calculate_expected_payoff counts 4096 = .ok (3, 3) ∧
    quantum_sim.get_expected_payoff counts 4096 = .ok 3 := by
  obtain ⟨hkeys, hsum⟩ := h
  have h00 : ∀ pr ∈ counts, pr.1 = "00" := by
    intro pr hpr
    rcases hkeys pr hpr with ⟨k, hk, hp⟩
    have hzero := QQ_probs (Real.pi / 2) k
    fin_cases k
    · exact hk
    · exact absurd (hzero.trans (by simp [Matrix.vecHead, Matrix.vecTail])) hp
    · exact absurd (hzero.trans (by simp [Matrix.vecHead, Matrix.vecTail])) hp
    · exact absurd (hzero.trans (by simp [Matrix.vecHead, Matrix.vecTail])) hp
  have hkeys4 : ∀ pr ∈ counts, pr.1 ∈ outcomeKeys := by
    intro pr hpr
    rw [h00 pr hpr]
    decide
  have hS : (((counts.map fun pr => pr.2).sum : ℕ) : ℚ) = 4096 := by
    rw [hsum]
    norm_num
  constructor
  · unfold app.calculate_expected_payoff
    rw [scores_eval counts hkeys4]
    simp only [Except.map, Except.ok.injEq, Prod.mk.injEq]
    rw [specAliceSum_all00 counts h00, specBobSum_all00 counts h00, hS]
    norm_num
  · unfold quantum_sim.get_expected_payoff
    rw [total_score_eval counts hkeys4]
    simp only [Except.map, Except.ok.injEq]
    rw [specAliceSum_all00 counts h00, hS]
    norm_num

/-- Witness for C6 at the sampler output `{'00': 4096}`. -/
theorem C6_quantum_vs_quantum_cooperative_witness :
    validSample (app.run_circuit_qc "Quantum (Q)" "Quantum (Q)" (Real.pi / 2))
      [("00", 4096)] 4096 ∧
    (app.calculate_expected_payoff [("00", 4096)] 4096 = .ok (3, 3) ∧
    quantum_sim.get_expected_payoff [("00", 4096)] 4096 = .ok 3) := by
  have hv : validSample (app.run_circuit_qc "Quantum (Q)" "Quantum (Q)" (Real.pi / 2))
      [("00", 4096)] 4096 := by
    constructor
    · intro pr hpr
      rw [List.mem_singleton] at hpr
      subst hpr
      refine ⟨0, rfl, ?_⟩
      rw [QQ_probs]
      simp
    · rfl
  exact ⟨hv, C6_quantum_vs_quantum_cooperative [("00", 4096)] hv⟩

/-- C8 (confirmed): for every pair of strategy labels the batch lookup accepts (and
every label pair on the dashboard side, whose lookup is total) and every gamma, the
circuit builders produce exactly the fixed 2-qubit, 2-classical-bit instruction
sequence: entangling gate on both qubits, Alice's operator on qubit 0 only, Bob's on
qubit 1 only, the exact conjugate transpose of the same entangling gate on both
qubits, then measurement of qubit 0 into classical bit 0 and qubit 1 into classical
bit 1 (barriers separate the stages).  The `Instr` type has no branching or classical
control, so neither circuit contains any. -/
theorem C8_circuit_structure (a b a2 b2 : String) (γ : ℝ)
    (opA opB : Matrix (Fin 2) (Fin 2) ℂ)
    (hA : quantum_sim.get_strategy_operator a = .ok opA)
    (hB : quantum_sim.get_strategy_operator b = .ok opB) :
    quantum_sim.run_ewl_circuit_qc a b γ =
      .ok ⟨2, 2, [.app2 (quantum_sim.get_J_gate γ) [0, 1], .barrier, .app1 opA 0,
        .app1 opB 1, .barrier, .app2 ((quantum_sim.get_J_gate γ)ᴴ) [0, 1],
        .measure [0, 1] [0, 1]]⟩ ∧
    app.run_circuit_qc a2 b2 γ =
      ⟨2, 2, [.app2 (app.get_J_gate γ) [0, 1], .barrier,
        .app1 (app.get_strategy_operator a2) 0, .app1 (app.get_strategy_operator b2) 1,
        .barrier, .app2 ((app.get_J_gate γ)ᴴ) [0, 1], .measure [0, 1] [0, 1]]⟩ := by
  constructor
  · simp [quantum_sim.run_ewl_circuit_qc, hA, hB, bind, Except.bind]
  · rfl

/-- Witness for C8 at labels `'C'`/`'D'` (batch) and the dashboard labels, gamma 0. -/
theorem C8_circuit_structure_witness :
    quantum_sim.get_strategy_operator "C" = .ok quantum_sim.I ∧
    quantum_sim.get_strategy_operator "D" = .ok quantum_sim.D ∧
    (quantum_sim.run_ewl_circuit_qc "C" "D" 0 =
      .ok ⟨2, 2, [.app2 (quantum_sim.get_J_gate 0) [0, 1], .barrier,
        .app1 quantum_sim.I 0, .app1 quantum_sim.D 1, .barrier,
        .app2 ((quantum_sim.get_J_gate 0)ᴴ) [0, 1], .measure [0, 1] [0, 1]]⟩ ∧
    app.run_circuit_qc "Cooperate (C)" "Defect (D)" 0 =
      ⟨2, 2, [.app2 (app.get_J_gate 0) [0, 1], .barrier,
        .app1 (app.get_strategy_operator "Cooperate (C)") 0,
        .app1 (app.get_strategy_operator "Defect (D)") 1,
        .barrier, .app2 ((app.get_J_gate 0)ᴴ) [0, 1], .measure [0, 1] [0, 1]]⟩) :=
  ⟨rfl, rfl,
    C8_circuit_structure "C" "D" "Cooperate (C)" "Defect (D)" 0
      quantum_sim.I quantum_sim.D rfl rfl⟩

/-- The three batch labels paired with the dashboard labels they correspond to. -/
def matchedLabels : List (String × String) :=
  [("C", "Cooperate (C)"), ("D", "Defect (D)"), ("Q", "Quantum (Q)")]

/-- The batch payoff result is exactly the first component of the dashboard's pair,
on every counts mapping (including the error cases). -/
theorem payoff_fst (counts : List (String × ℕ)) (shots : ℕ) :
    quantum_sim.get_expected_payoff counts shots =
      (app.calculate_expected_payoff counts shots).map Prod.fst := by
  unfold quantum_sim.get_expected_payoff app.calculate_expected_payoff
  rw [total_score_eq_fst]
  cases app.scores counts <;> rfl

/-- C3, counterexample: the claim asserts the two payoff aggregations "compute the
same payoff result".  On `{'11': 5}` and `{'01': 1}` (5 shots) the batch function
returns the same single number 1 for both, while the dashboard returns the distinct
pairs (1, 1) and (1, 0): the batch result omits Bob's payoff and is not the same
result. -/
theorem C3_counterexample :
    quantum_sim.get_expected_payoff [("11", 5)] 5 = .ok 1 ∧
    quantum_sim.get_expected_payoff [("01", 1)] 5 = .ok 1 ∧
    app.calculate_expected_payoff [("11", 5)] 5 = .ok (1, 1) ∧
    app.calculate_expected_payoff [("01", 1)] 5 = .ok (1, 0) ∧
    ((1 : ℚ), (1 : ℚ)) ≠ ((1 : ℚ), (0 : ℚ)) := by
  have hne : ((1 : ℚ), (1 : ℚ)) ≠ ((1 : ℚ), (0 : ℚ)) := by
    intro hcontra
    have h2 := congrArg Prod.snd hcontra
    norm_num at h2
  refine ⟨?_, ?_, ?_, ?_, hne⟩
  · show Except.ok ((1 * ((5 : ℕ) : ℚ) + 0) / ((5 : ℕ) : ℚ)) = _
    norm_num
  · show Except.ok ((5 * ((1 : ℕ) : ℚ) + 0) / ((5 : ℕ) : ℚ)) = _
    norm_num
  · show Except.ok ((1 * ((5 : ℕ) : ℚ) + 0) / ((5 : ℕ) : ℚ),
      (1 * ((5 : ℕ) : ℚ) + 0) / ((5 : ℕ) : ℚ)) = _
    norm_num
  · show Except.ok ((5 * ((1 : ℕ) : ℚ) + 0) / ((5 : ℕ) : ℚ),
      (0 * ((1 : ℕ) : ℚ) + 0) / ((5 : ℕ) : ℚ)) = _
    norm_num

/-- C3 (amended): for corresponding label pairs the two modules run identical
circuit-construction logic over identical operator matrices — the same entangling
gate function, the same strategy matrices, and equal built circuits for every gamma —
and their payoff aggregations agree on Alice's expected payoff: the batch result is
exactly the first component of the dashboard's pair.  They do not compute the same
full payoff result, since the batch version omits Bob's component. -/
theorem C3_shared_logic (pA pB : String × String)
    (hA : pA ∈ matchedLabels) (hB : pB ∈ matchedLabels) (γ : ℝ)
    (counts : List (String × ℕ)) (shots : ℕ) :
    quantum_sim.get_J_gate γ = app.get_J_gate γ ∧
    quantum_sim.I = app.I ∧ quantum_sim.D = app.D ∧ quantum_sim.Q = app.Q ∧
    quantum_sim.run_ewl_circuit_qc pA.1 pB.1 γ = .ok (app.run_circuit_qc pA.2 pB.2 γ) ∧
    quantum_sim.get_expected_payoff counts shots =
      (app.calculate_expected_payoff counts shots).map Prod.fst := by
  refine ⟨rfl, rfl, rfl, rfl, ?_, payoff_fst counts shots⟩
  fin_cases hA <;> fin_cases hB <;> rfl

/-- Witness for C3's amended theorem at the pair C/Quantum, gamma 0, counts `{'00': 1}`. -/
theorem C3_shared_logic_witness :
    (("C", "Cooperate (C)") ∈ matchedLabels) ∧ (("Q", "Quantum (Q)") ∈ matchedLabels) ∧
    (quantum_sim.get_J_gate 0 = app.get_J_gate 0 ∧
    quantum_sim.I = app.I ∧ quantum_sim.D = app.D ∧ quantum_sim.Q = app.Q ∧
    quantum_sim.run_ewl_circuit_qc "C" "Q" 0 =
      .ok (app.run_circuit_qc "Cooperate (C)" "Quantum (Q)" 0) ∧
    quantum_sim.get_expected_payoff [("00", 1)] 1 =
      (app.calculate_expected_payoff [("00", 1)] 1).map Prod.fst) :=
  ⟨by decide, by decide,
    C3_shared_logic ("C", "Cooperate (C)") ("Q", "Quantum (Q)")
      (by decide) (by decide) 0 [("00", 1)] 1⟩
